import Mathlib

/-!
Verification of the geometric utility functions of `pyts-utils`.

The repository has two modules:
* `logo/logo.py` — the closed-form curve `pyts_time_series`, built from the
  clamped arc helper `circle` and the element-wise clamp `maximum`, plus the
  figure-building routine `make_pyts_logo`;
* `github_ribbon/github_ribbon.py` — the ribbon-drawing routine
  `make_github_ribbon`.

The numeric curve functions are embedded over the real numbers (the Python
code computes with decimal literals and `np.sqrt`).  The figure-building
routines are embedded as pure functions returning a record of the geometric
data handed to the plotting library (polygon vertices, axis limits) together
with the ordered list of side effects (`savefig`, `show`) they issue; those
use rational coordinates so that everything is decidable.
-/

namespace PytsUtils

/-- Embedding of `maximum(x)`, that is `np.maximum(x, 0)`, applied to one
scalar element (`logo.py`, lines 10–24). -/
noncomputable def maximum (x : ℝ) : ℝ := max x 0

/-- The clamp `maximum` applied to a whole array, element-wise, as `np.maximum(x, 0)`
broadcasts over an array argument. -/
noncomputable def maximumVec (x : List ℝ) : List ℝ := x.map maximum

/-- Indicator for the Python boolean factor `(x >= lo)`, coerced to `0`/`1`
as multiplication does in numpy. -/
noncomputable def indGE (lo x : ℝ) : ℝ := if lo ≤ x then 1 else 0

/-- Indicator for the Python boolean factor `(x <= hi)`, coerced to `0`/`1`. -/
noncomputable def indLE (hi x : ℝ) : ℝ := if x ≤ hi then 1 else 0

/-- The argument handed to `np.sqrt` inside `circle`
(`logo.py`, lines 53–55): the clamp `maximum` applied to
`r ** 2 - ((x - a) ** 2) * (x >= x_lim[0]) * (x <= x_lim[1])`. -/
noncomputable def circleSqrtArg (x r a : ℝ) (xLim : ℝ × ℝ) : ℝ :=
  maximum (r ^ 2 - ((x - a) ^ 2) * indGE xLim.1 x * indLE xLim.2 x)

/-- Embedding of `circle(x, r, a, b, x_lim)` (`logo.py`, lines 27–56):
`y = (b + np.sqrt(maximum(...))) * (x >= x_lim[0]) * (x <= x_lim[1])`. -/
noncomputable def circle (x r a b : ℝ) (xLim : ℝ × ℝ) : ℝ :=
  (b + Real.sqrt (circleSqrtArg x r a xLim)) * indGE xLim.1 x * indLE xLim.2 x

/-- Embedding of `pyts_time_series(x)` (`logo.py`, lines 59–78): the sum `p + y + t + s`
with `t = 0` and `s` the small arc plus the `0.1 * (x >= 0.9) * (x <= 1.2)`
offset. -/
noncomputable def pyts_time_series (x : ℝ) : ℝ :=
  circle x 0.2 0 0 (-0.2, 0.2)
    + (- circle x 0.2 0.4 0 (0.2, 0.6))
    + 0
    + (circle x 0.125 0.9 (-0.025) (0.775, 0.9)
        + 0.1 * indGE 0.9 x * indLE 1.2 x)

/-- A side effect issued by a figure-building routine, in program order. -/
inductive PlotEffect where
  | savefig (path : String) (dpi : ℚ) (transparent : Bool)
  | showFig
deriving DecidableEq

/-- Holds exactly on the effects that write a file. -/
def isSavefig : PlotEffect → Bool
  | PlotEffect.savefig _ _ _ => true
  | PlotEffect.showFig => false

/-- Whether a list of issued effects contains a filesystem write. -/
def writesFile (effs : List PlotEffect) : Bool := effs.any isSavefig

/-- The geometric data and effects produced by one `make_github_ribbon`
call. -/
structure RibbonRender where
  polygon : List (ℚ × ℚ)
  textPos : ℚ × ℚ
  textStr : String
  textRotation : ℚ
  fontsize : ℚ
  figsize : ℚ × ℚ
  backgroundColor : String
  textColor : String
  xlim : ℚ × ℚ
  ylim : ℚ × ℚ
  effects : List PlotEffect
deriving DecidableEq

/-- Embedding of `make_github_ribbon` (`github_ribbon.py`, lines 7–72): breakpoints
`left, center, right = 0.3, 0.4, 0.6`, the polygon
`zip([left, center, right, right], [right, right, center, left])`,
text at `(0.475, 0.475)` rotated `-45`, `xlim`/`ylim` set to
`(left, right)`, and `savefig(output_file, dpi, transparent=True)` issued
before `show()` exactly when `output_file` is not `None`. -/
def make_github_ribbon (background_color text_color text : String)
    (fontsize : ℚ) (figsize : ℚ × ℚ) (output_file : Option String)
    (dpi : ℚ) : RibbonRender :=
  let left : ℚ := 0.3
  let center : ℚ := 0.4
  let right : ℚ := 0.6
  let x := [left, center, right, right]
  let y := [right, right, center, left]
  { polygon := x.zip y
    textPos := (0.475, 0.475)
    textStr := text
    textRotation := -45
    fontsize := fontsize
    figsize := figsize
    backgroundColor := background_color
    textColor := text_color
    xlim := (left, right)
    ylim := (left, right)
    effects :=
      (match output_file with
        | some f => [PlotEffect.savefig f dpi true]
        | none => []) ++ [PlotEffect.showFig] }

/-- The axis limits and effects produced by one `make_pyts_logo` call. -/
structure LogoRender where
  cmap : String
  backgroundColor : String
  xlim : ℚ × ℚ
  ylim : ℚ × ℚ
  effects : List PlotEffect
deriving DecidableEq

/-- Embedding of `make_pyts_logo` (`logo.py`, lines 81–188): `xlim = (-0.25, 1.25)`,
`ylim = (-0.65, 0.25)`, and `savefig(output_file, dpi)` (opaque background)
issued before `show()` exactly when `output_file` is not `None`. -/
def make_pyts_logo (cmap background_color : String)
    (output_file : Option String) (dpi : ℚ) : LogoRender :=
  { cmap := cmap
    backgroundColor := background_color
    xlim := (-0.25, 1.25)
    ylim := (-0.65, 0.25)
    effects :=
      (match output_file with
        | some f => [PlotEffect.savefig f dpi false]
        | none => []) ++ [PlotEffect.showFig] }

/-! ### Evaluation lemmas for the indicators and `circle` -/

theorem indGE_one {lo x : ℝ} (h : lo ≤ x) : indGE lo x = 1 := if_pos h

theorem indGE_zero {lo x : ℝ} (h : x < lo) : indGE lo x = 0 :=
  if_neg (not_le.mpr h)

theorem indLE_one {hi x : ℝ} (h : x ≤ hi) : indLE hi x = 1 := if_pos h

theorem indLE_zero {hi x : ℝ} (h : hi < x) : indLE hi x = 0 :=
  if_neg (not_le.mpr h)

theorem circle_eq_zero_left {x r a b lo hi : ℝ} (h : x < lo) :
    circle x r a b (lo, hi) = 0 := by
  simp [circle, indGE_zero h]

theorem circle_eq_zero_right {x r a b lo hi : ℝ} (h : hi < x) :
    circle x r a b (lo, hi) = 0 := by
  simp [circle, indLE_zero h]

theorem circle_inside {x r a b lo hi : ℝ} (h1 : lo ≤ x) (h2 : x ≤ hi) :
    circle x r a b (lo, hi) = b + Real.sqrt (max (r ^ 2 - (x - a) ^ 2) 0) := by
  simp [circle, circleSqrtArg, maximum, indGE_one h1, indLE_one h2]

theorem sqrt_max_sq {c : ℝ} (hc : 0 ≤ c) {d : ℝ} (hd : d = c ^ 2) :
    Real.sqrt (max d 0) = c := by
  rw [hd, max_eq_left (sq_nonneg c), Real.sqrt_sq hc]

/-- Shared evaluation: `pyts_time_series 0.9 = 0.2`. -/
theorem pyts_time_series_at_nine_tenths : pyts_time_series 0.9 = 0.2 := by
  unfold pyts_time_series
  rw [circle_eq_zero_right (by norm_num : (0.2 : ℝ) < 0.9),
    circle_eq_zero_right (by norm_num : (0.6 : ℝ) < 0.9),
    circle_inside (by norm_num : (0.775 : ℝ) ≤ 0.9) (le_refl (0.9 : ℝ)),
    indGE_one (le_refl (0.9 : ℝ)),
    indLE_one (by norm_num : (0.9 : ℝ) ≤ 1.2),
    sqrt_max_sq (by norm_num : (0 : ℝ) ≤ 0.125)
      (by norm_num : (0.125 : ℝ) ^ 2 - (0.9 - 0.9) ^ 2 = 0.125 ^ 2)]
  norm_num

/-! ### Claim theorems -/

/-- C1: `pyts_time_series` evaluated at `x = 0` returns exactly `0.2`: the
first bump term `circle(x, r=0.2, a=0, b=0, x_lim=(-0.2, 0.2))` contributes
`sqrt(0.2 ^ 2 - 0) = 0.2` at `x = 0`, and every other term contributes `0`
there. -/
theorem pyts_time_series_at_zero : pyts_time_series 0 = 0.2 := by
  unfold pyts_time_series
  rw [circle_inside (by norm_num : (-0.2 : ℝ) ≤ 0) (by norm_num : (0 : ℝ) ≤ 0.2),
    circle_eq_zero_left (by norm_num : (0 : ℝ) < 0.2),
    circle_eq_zero_left (by norm_num : (0 : ℝ) < 0.775),
    indGE_zero (by norm_num : (0 : ℝ) < 0.9),
    sqrt_max_sq (by norm_num : (0 : ℝ) ≤ 0.2)
      (by norm_num : (0.2 : ℝ) ^ 2 - (0 - 0) ^ 2 = 0.2 ^ 2)]
  ring

/-- C2 (counterexample): `pyts_time_series 0.9` is not `0.125`.  At
`x = 0.9` the s-bump `circle` term contributes `b + r = -0.025 + 0.125 = 0.1`
and the `+0.1` offset, active on `0.9 ≤ x ≤ 1.2`, contributes another `0.1`,
so the value is `0.2`. -/
theorem pyts_time_series_at_nine_tenths_ne :
    pyts_time_series 0.9 ≠ 0.125 := by
  rw [pyts_time_series_at_nine_tenths]
  norm_num

/-- C2 (amended): `pyts_time_series 0.9 = 0.2` (the s-bump circle term
contributes `-0.025 + 0.125 = 0.1` and the `+0.1` offset already applies at
`x = 0.9`), and `pyts_time_series 1.0 = 0.1` (only the `+0.1` offset term
contributes there). -/
theorem pyts_time_series_s_bump_values :
    pyts_time_series 0.9 = 0.2 ∧ pyts_time_series 1 = 0.1 := by
  refine ⟨pyts_time_series_at_nine_tenths, ?_⟩
  unfold pyts_time_series
  rw [circle_eq_zero_right (by norm_num : (0.2 : ℝ) < 1),
    circle_eq_zero_right (by norm_num : (0.6 : ℝ) < 1),
    circle_eq_zero_right (by norm_num : (0.9 : ℝ) < 1),
    indGE_one (by norm_num : (0.9 : ℝ) ≤ 1),
    indLE_one (by norm_num : (1 : ℝ) ≤ 1.2)]
  ring

/-- C3: for every `x` outside an arc term's active interval `[lo, hi]`
(`x < lo` or `x > hi`) and all `r`, `a`, `b`, `circle x r a b (lo, hi)`
returns exactly `0`; and the argument of the square root inside `circle`
is never negative for any real input, so no NaN is ever produced. -/
theorem circle_outside_zero (x r a b lo hi : ℝ) :
    (x < lo ∨ hi < x → circle x r a b (lo, hi) = 0)
      ∧ 0 ≤ circleSqrtArg x r a (lo, hi) := by
  constructor
  · rintro (h | h)
    · exact circle_eq_zero_left h
    · exact circle_eq_zero_right h
  · exact le_max_right _ _

/-- Witness for C3: at the concrete input `x = 5` outside the interval
`[0, 1]`, `circle` is `0` and the square-root argument is non-negative. -/
theorem circle_outside_zero_witness :
    ((5 : ℝ) < 0 ∨ (1 : ℝ) < 5)
      ∧ circle 5 1 0 0 (0, 1) = 0
      ∧ 0 ≤ circleSqrtArg 5 1 0 (0, 1) :=
  ⟨Or.inr (by norm_num),
    (circle_outside_zero 5 1 0 0 0 1).1 (Or.inr (by norm_num)),
    (circle_outside_zero 5 1 0 0 0 1).2⟩

/-- C4: the overlay curve is continuous at the boundary `x = 0.2` where
terms 1 and 2 meet: term 1 `circle(x, 0.2, 0, 0, (-0.2, 0.2))` evaluates to
`0` at `x = 0.2`, term 2 `-circle(x, 0.2, 0.4, 0, (0.2, 0.6))` also
evaluates to `0` there, and `pyts_time_series 0.2 = 0`. -/
theorem pyts_time_series_boundary_two_tenths :
    circle 0.2 0.2 0 0 (-0.2, 0.2) = 0
      ∧ - circle 0.2 0.2 0.4 0 (0.2, 0.6) = 0
      ∧ pyts_time_series 0.2 = 0 := by
  have h1 : circle 0.2 0.2 0 0 ((-0.2 : ℝ), (0.2 : ℝ)) = 0 := by
    rw [circle_inside (by norm_num : (-0.2 : ℝ) ≤ 0.2) (le_refl (0.2 : ℝ)),
      sqrt_max_sq (le_refl (0 : ℝ))
        (by norm_num : (0.2 : ℝ) ^ 2 - (0.2 - 0) ^ 2 = 0 ^ 2)]
    ring
  have h2 : circle 0.2 0.2 0.4 0 ((0.2 : ℝ), (0.6 : ℝ)) = 0 := by
    rw [circle_inside (le_refl (0.2 : ℝ)) (by norm_num : (0.2 : ℝ) ≤ 0.6),
      sqrt_max_sq (le_refl (0 : ℝ))
        (by norm_num : (0.2 : ℝ) ^ 2 - (0.2 - 0.4) ^ 2 = 0 ^ 2)]
    ring
  refine ⟨h1, by rw [h2]; ring, ?_⟩
  unfold pyts_time_series
  rw [h1, h2,
    circle_eq_zero_left (by norm_num : (0.2 : ℝ) < 0.775),
    indGE_zero (by norm_num : (0.2 : ℝ) < 0.9)]
  ring

/-- C5 (counterexample): the polygon passed to the drawing call by
`make_github_ribbon` (at its default arguments) does not have three
vertices — it has four. -/
theorem ribbon_polygon_not_triangle :
    ¬ ((make_github_ribbon "darkslategray" "white" "Fork me on GitHub"
        14 (3, 3) none 400).polygon.length = 3) := by
  decide

/-- C5 (amended): the ribbon shape drawn by `make_github_ribbon` is a
trapezoid: the polygon passed to the drawing call has exactly four
vertices `(left, right)`, `(center, right)`, `(right, center)`,
`(right, left)` determined by the breakpoints `left = 0.3`,
`center = 0.4`, `right = 0.6`. -/
theorem ribbon_polygon_is_trapezoid (bc tc text : String) (fontsize : ℚ)
    (figsize : ℚ × ℚ) (output_file : Option String) (dpi : ℚ) :
    (make_github_ribbon bc tc text fontsize figsize output_file dpi).polygon
        = [(0.3, 0.6), (0.4, 0.6), (0.6, 0.4), (0.6, 0.3)]
      ∧ (make_github_ribbon bc tc text fontsize figsize output_file
          dpi).polygon.length = 4 :=
  ⟨rfl, rfl⟩

/-- C6: for both `make_github_ribbon` and `make_pyts_logo`, an image file
is written if and only if `output_file` is not `None`: when
`output_file = None` no filesystem write occurs, and when a path is given
the save call is issued with that path and the given dpi before
displaying. -/
theorem savefig_iff_output_file (bc tc text : String) (fontsize : ℚ)
    (figsize : ℚ × ℚ) (cmap lbc : String) (output_file : Option String)
    (dpi : ℚ) :
    (writesFile (make_github_ribbon bc tc text fontsize figsize output_file
        dpi).effects = output_file.isSome)
      ∧ (writesFile (make_pyts_logo cmap lbc output_file dpi).effects
          = output_file.isSome)
      ∧ (∀ f, output_file = some f →
          (make_github_ribbon bc tc text fontsize figsize output_file
              dpi).effects
              = [PlotEffect.savefig f dpi true, PlotEffect.showFig]
            ∧ (make_pyts_logo cmap lbc output_file dpi).effects
              = [PlotEffect.savefig f dpi false, PlotEffect.showFig]) := by
  cases output_file <;>
    simp [make_github_ribbon, make_pyts_logo, writesFile, isSavefig]

/-- Witness for C6: with the concrete path `logo.png` and `dpi = 400`,
both routines issue the save call with that path and dpi before the
display call. -/
theorem savefig_iff_output_file_witness :
    (some "logo.png" : Option String) = some "logo.png"
      ∧ (make_github_ribbon "darkslategray" "white" "Fork me on GitHub"
          14 (3, 3) (some "logo.png") 400).effects
          = [PlotEffect.savefig "logo.png" 400 true, PlotEffect.showFig]
      ∧ (make_pyts_logo "jet" "darkslategray" (some "logo.png")
          400).effects
          = [PlotEffect.savefig "logo.png" 400 false, PlotEffect.showFig] :=
  ⟨rfl,
    ((savefig_iff_output_file "darkslategray" "white" "Fork me on GitHub"
        14 (3, 3) "jet" "darkslategray" (some "logo.png") 400).2.2
      "logo.png" rfl).1,
    ((savefig_iff_output_file "darkslategray" "white" "Fork me on GitHub"
        14 (3, 3) "jet" "darkslategray" (some "logo.png") 400).2.2
      "logo.png" rfl).2⟩

/-- C7: `maximum` returns the element-wise maximum of the input array and
`0`; in particular `maximum [-1, 0, 2]` returns `[0, 0, 2]`. -/
theorem maximum_elementwise :
    (∀ l : List ℝ, maximumVec l = l.map (fun v => max v 0))
      ∧ maximumVec [-1, 0, 2] = [0, 0, 2] := by
  refine ⟨fun l => rfl, ?_⟩
  show [maximum (-1), maximum 0, maximum 2] = ([0, 0, 2] : List ℝ)
  unfold maximum
  rw [max_eq_right (by norm_num : (-1 : ℝ) ≤ 0), max_self,
    max_eq_left (by norm_num : (0 : ℝ) ≤ 2)]

/-- C8: `make_github_ribbon` sets the view bounds exactly to the ribbon's
bounding box on both axes: the x-axis limits and the y-axis limits are
both set to `(left, right) = (0.3, 0.6)`. -/
theorem ribbon_view_bounds (bc tc text : String) (fontsize : ℚ)
    (figsize : ℚ × ℚ) (output_file : Option String) (dpi : ℚ) :
    (make_github_ribbon bc tc text fontsize figsize output_file dpi).xlim
        = (0.3, 0.6)
      ∧ (make_github_ribbon bc tc text fontsize figsize output_file
          dpi).ylim = (0.3, 0.6) :=
  ⟨rfl, rfl⟩

/-- C9: for every `x` strictly outside the interval `[-0.2, 1.2]`,
`pyts_time_series x = 0`: every bump term's indicator and the `+0.1`
offset's indicator are all zero there. -/
theorem pyts_time_series_zero_outside (x : ℝ)
    (h : x < -0.2 ∨ 1.2 < x) : pyts_time_series x = 0 := by
  unfold pyts_time_series
  rcases h with h | h
  · rw [circle_eq_zero_left h,
      circle_eq_zero_left (by linarith : x < 0.2),
      circle_eq_zero_left (by linarith : x < 0.775),
      indGE_zero (by linarith : x < 0.9)]
    ring
  · rw [circle_eq_zero_right (by linarith : (0.2 : ℝ) < x),
      circle_eq_zero_right (by linarith : (0.6 : ℝ) < x),
      circle_eq_zero_right (by linarith : (0.9 : ℝ) < x),
      indLE_zero h]
    ring

/-- Witness for C9: the concrete input `x = 2` lies outside `[-0.2, 1.2]`
and `pyts_time_series 2 = 0`. -/
theorem pyts_time_series_zero_outside_witness :
    ((2 : ℝ) < -0.2 ∨ (1.2 : ℝ) < 2) ∧ pyts_time_series 2 = 0 :=
  ⟨Or.inr (by norm_num),
    pyts_time_series_zero_outside 2 (Or.inr (by norm_num))⟩

/-- C10: `circle` is total over all real inputs: for every `x`, radius
`r`, center `(a, b)` and interval `xLim` — including `x` inside the
interval with `|x - a| > r` — the clamp `maximum (·) 0` guarantees the
square-root argument is non-negative, so `circle` always returns the real
number `(b + sqrt(clamped arg)) * indicators` and never yields NaN. -/
theorem circle_total (x r a b : ℝ) (xLim : ℝ × ℝ) :
    0 ≤ circleSqrtArg x r a xLim
      ∧ circle x r a b xLim
        = (b + Real.sqrt (circleSqrtArg x r a xLim)) * indGE xLim.1 x
            * indLE xLim.2 x :=
  ⟨le_max_right _ _, rfl⟩

end PytsUtils
